import Mathlib

/-!
Verification development for the HYDRA digital-twin simulation engine.

Shallow embedding of the repository's core modules:
* `core/models.py`      — frozen dataclasses with clamping post-conditions;
* `engine/analytics.py` — WQI, WHO compliance, OLS maintenance forecast;
* `engine/simulator.py` — climate model and seeded per-tick simulator.

Python floats are modelled as rationals (`ℚ`); every claim settled here is a
linear-arithmetic / control-flow property, not a bit-level float property.
An optional sensor reading (`Optional[float]`, offline = `None`) is
`Option ℚ`.  Wall-clock timestamps (`datetime.now()`) are modelled as an
explicit `Nat` input supplied at each call, the standard embedding of an
impure read of the environment.
-/

namespace Hydra

/-- Model of `core/models.py::_clamp` with a finite upper bound:
`max(lo, min(hi, val))`. -/
def clampQ (lo hi v : ℚ) : ℚ := max lo (min hi v)

/-- Model of `core/models.py::_clamp` with `hi = float("inf")`: `min(inf, v) = v`,
so the clamp reduces to `max lo v`. -/
def clampLo (lo v : ℚ) : ℚ := max lo v

/-- Model of `core/models.py::HeliosState` (fields after `__post_init__` clamping). -/
structure HeliosState where
  solar_irradiance_wm2 : ℚ
  desalination_rate_lhr : ℚ
  timestamp : Nat
deriving DecidableEq

/-- Constructor of `HeliosState`: `__post_init__` clamps
`solar_irradiance_wm2` into `[0, 1400]` and `desalination_rate_lhr`
into `[0, ∞)`. -/
def HeliosState.make (irr desal : ℚ) (ts : Nat) : HeliosState :=
  { solar_irradiance_wm2 := clampQ 0 1400 irr
    desalination_rate_lhr := clampLo 0 desal
    timestamp := ts }

/-- Model of `core/models.py::AegisState` (fields after `__post_init__` clamping). -/
structure AegisState where
  membrane_integrity_pct : ℚ
  biofouling_risk_pct : ℚ
  quorum_quenching_active : Bool
  timestamp : Nat
deriving DecidableEq

/-- Constructor of `AegisState`: `__post_init__` clamps both percentages
into `[0, 100]`. -/
def AegisState.make (membrane biofouling : ℚ) (qq : Bool) (ts : Nat) :
    AegisState :=
  { membrane_integrity_pct := clampQ 0 100 membrane
    biofouling_risk_pct := clampQ 0 100 biofouling
    quorum_quenching_active := qq
    timestamp := ts }

/-- Model of `core/models.py::SentinelState` (fields after `__post_init__`
clamping; `none` = sensor offline). -/
structure SentinelState where
  ph_level : Option ℚ
  turbidity_ntu : Option ℚ
  heavy_metal_ppm : Option ℚ
  timestamp : Nat
deriving DecidableEq

/-- Constructor of `SentinelState`: `__post_init__` clamps each present
reading (pH into `[0, 14]`, turbidity and heavy metal into `[0, ∞)`);
offline readings stay `none`. -/
def SentinelState.make (ph turb metal : Option ℚ) (ts : Nat) : SentinelState :=
  { ph_level := ph.map (clampQ 0 14)
    turbidity_ntu := turb.map (clampLo 0)
    heavy_metal_ppm := metal.map (clampLo 0)
    timestamp := ts }

/-- Model of `core/models.py::HydraState` — one composite snapshot per tick. -/
structure HydraState where
  helios : HeliosState
  aegis : AegisState
  sentinel : SentinelState
  tick : Nat
deriving DecidableEq

/-! ## `engine/analytics.py` -/

/-- pH sub-score of `compute_wqi`:
`deviation = max(0, |ph - 7.5| - 1)`; `sub = max(0, 100 - deviation*15)`. -/
def phSubScore (p : ℚ) : ℚ := max 0 (100 - (max 0 (|p - 7.5| - 1)) * 15)

/-- Turbidity sub-score of `compute_wqi`: `max(0, 100 - turbidity*10)`. -/
def turbSubScore (t : ℚ) : ℚ := max 0 (100 - t * 10)

/-- Heavy-metal sub-score of `compute_wqi`: `max(0, 100 - ppm*2000)`. -/
def metalSubScore (m : ℚ) : ℚ := max 0 (100 - m * 2000)

/-- The `_WQI_GRADES` lookup loop: first threshold `score >=` wins, in the
order 90/A, 70/B, 50/C, 30/D, 0/F, with the same `(score, "F", red)`
fallback as the source. -/
def wqiGrade (score : ℚ) : String × String :=
  if 90 ≤ score then ("A", "#39ff14")
  else if 70 ≤ score then ("B", "#00f0ff")
  else if 50 ≤ score then ("C", "#ffd700")
  else if 30 ≤ score then ("D", "#ff8c00")
  else if 0 ≤ score then ("F", "#ff073a")
  else ("F", "#ff073a")

/-- Model of `engine/analytics.py::compute_wqi`.  Builds the `(sub_score, weight)`
component list from the present channels, returns `(0, "N/A", "#505068")`
when all channels are offline, otherwise the weight-renormalised average
clamped into `[0, 100]` together with its letter grade and colour. -/
def compute_wqi (ph turbidity heavy_metal : Option ℚ) : ℚ × String × String :=
  let components : List (ℚ × ℚ) :=
    (match ph with
     | some p => [(phSubScore p, 0.35)]
     | none => []) ++
    (match turbidity with
     | some t => [(turbSubScore t, 0.35)]
     | none => []) ++
    (match heavy_metal with
     | some m => [(metalSubScore m, 0.30)]
     | none => [])
  if components = [] then (0, "N/A", "#505068")
  else
    let total_weight := (components.map Prod.snd).sum
    let raw := (components.map fun c => c.1 * c.2).sum / total_weight
    let score := max 0 (min 100 raw)
    (score, (wqiGrade score).1, (wqiGrade score).2)

/-- Model of `engine/analytics.py::check_who_compliance`.  The formatted value
string of each detail row is display-only in the source (`f"{ph:.2f}"`
etc.) and never read back; details are embedded as
`(parameter, result)` pairs.  The aggregate status is computed from the
result column exactly as in the source: all `PASS` → `PASS`, else any
`FAIL` → `FAIL`, else `PARTIAL`. -/
def check_who_compliance (ph turbidity heavy_metal : Option ℚ) :
    String × List (String × String) :=
  let phCheck : String × String :=
    match ph with
    | some p => ("pH", if 6.5 ≤ p ∧ p ≤ 8.5 then "PASS" else "FAIL")
    | none => ("pH", "OFFLINE")
  let turbCheck : String × String :=
    match turbidity with
    | some t => ("Turbidity", if t < 1 then "PASS" else "FAIL")
    | none => ("Turbidity", "OFFLINE")
  let metalCheck : String × String :=
    match heavy_metal with
    | some m => ("Heavy Metal", if m < 0.01 then "PASS" else "FAIL")
    | none => ("Heavy Metal", "OFFLINE")
  let checks := [phCheck, turbCheck, metalCheck]
  let results := checks.map Prod.snd
  let status :=
    if results.all (· == "PASS") then "PASS"
    else if results.any (· == "FAIL") then "FAIL"
    else "PARTIAL"
  (status, checks)

/-- The value `sum(range(n))` as a rational. -/
def sxOf (n : Nat) : ℚ := ∑ i ∈ Finset.range n, (i : ℚ)

/-- The value `sum(data)`. -/
def syOf (data : List ℚ) : ℚ := data.sum

/-- The value `sum(i*i for i in range(n))` as a rational. -/
def sx2Of (n : Nat) : ℚ := ∑ i ∈ Finset.range n, (i : ℚ) * (i : ℚ)

/-- The value `sum(i * y for i, y in enumerate(data))`, accumulated with the running
index exactly as `enumerate` yields it. -/
def sxyAux (i : Nat) : List ℚ → ℚ
  | [] => 0
  | y :: ys => (i : ℚ) * y + sxyAux (i + 1) ys

/-- The value `sum(i * y for i, y in enumerate(data))`. -/
def sxyOf (data : List ℚ) : ℚ := sxyAux 0 data

/-- The value `denom = n * sx2 - sx * sx` in `predict_maintenance`. -/
def olsDenom (n : Nat) : ℚ := (n : ℚ) * sx2Of n - sxOf n * sxOf n

/-- The value `slope = (n * sxy - sx * sy) / denom` in `predict_maintenance`. -/
def olsSlope (data : List ℚ) : ℚ :=
  ((data.length : ℚ) * sxyOf data - sxOf data.length * syOf data) /
    olsDenom data.length

/-- The value `intercept = (sy - slope * sx) / n` in `predict_maintenance`. -/
def olsIntercept (data : List ℚ) : ℚ :=
  (syOf data - olsSlope data * sxOf data.length) / (data.length : ℚ)

/-- Python `int()` conversion of a float: truncation toward zero. -/
def pyTrunc (q : ℚ) : ℤ := if 0 ≤ q then ⌊q⌋ else -⌊-q⌋

/-- Model of `engine/analytics.py::predict_maintenance`.  Offline samples are
dropped (`data = [v for v in membrane_history if v is not None]`), then:
fewer than 10 samples → `(None, 0, 0)`; zero OLS denominator →
`(None, 0, data[-1])`; slope ≥ 0 → `(None, slope, intercept)`; current
fitted value `slope*(n-1)+intercept` already ≤ threshold →
`(0, slope, intercept)`; otherwise
`(max(0, int((threshold - current_y)/slope)), slope, intercept)`. -/
def predict_maintenance (membrane_history : List (Option ℚ))
    (threshold : ℚ) : Option ℤ × ℚ × ℚ :=
  let data := membrane_history.filterMap id
  let n := data.length
  if n < 10 then (none, 0, 0)
  else if olsDenom n = 0 then (none, 0, data.getLastD 0)
  else
    let slope := olsSlope data
    let intercept := olsIntercept data
    if 0 ≤ slope then (none, slope, intercept)
    else
      let current_y := slope * ((n : ℚ) - 1) + intercept
      if current_y ≤ threshold then (some 0, slope, intercept)
      else (some (max 0 (pyTrunc ((threshold - current_y) / slope))),
            slope, intercept)

/-! ## `engine/simulator.py` -/

/-- Model of `engine/simulator.py::ClimateProfile`. -/
structure ClimateProfile where
  zone : String
  noise_factor : ℚ
  fail_rate : ℚ
  cycle_period : Nat
deriving DecidableEq

/-- Model of `engine/simulator.py::climate_from_latitude` — piecewise lookup over
the absolute latitude. -/
def climate_from_latitude (lat : ℚ) : ClimateProfile :=
  let a := |lat|
  if a < 23.5 then ⟨"Tropical", 1.0, 0.04, 120⟩
  else if a < 35 then ⟨"Arid", 1.3, 0.03, 130⟩
  else if a < 55 then ⟨"Temperate", 1.1, 0.02, 150⟩
  else if a < 66.5 then ⟨"Cold", 1.4, 0.02, 180⟩
  else ⟨"Polar", 1.6, 0.05, 240⟩

/-- The five climate rows of `climate_from_latitude`, indexed in source
order. -/
def zoneProfiles : Fin 5 → ClimateProfile
  | 0 => ⟨"Tropical", 1.0, 0.04, 120⟩
  | 1 => ⟨"Arid", 1.3, 0.03, 130⟩
  | 2 => ⟨"Temperate", 1.1, 0.02, 150⟩
  | 3 => ⟨"Cold", 1.4, 0.02, 180⟩
  | 4 => ⟨"Polar", 1.6, 0.05, 240⟩

/-- The latitude band selecting each climate row, read off the ordered
exclusive breakpoints of `climate_from_latitude`. -/
def zonePred : Fin 5 → ℚ → Prop
  | 0, lat => |lat| < 23.5
  | 1, lat => 23.5 ≤ |lat| ∧ |lat| < 35
  | 2, lat => 35 ≤ |lat| ∧ |lat| < 55
  | 3, lat => 55 ≤ |lat| ∧ |lat| < 66.5
  | 4, lat => 66.5 ≤ |lat|

/-- Model of `engine/simulator.py::StationConfig`. -/
structure StationConfig where
  name : String
  seed : Int
  lat : ℚ
  lon : ℚ
  altitude_m : Int
  irradiance_base : ℚ := 700
  membrane_base : ℚ := 85
deriving DecidableEq

/-- Model of the ambient numeric environment the simulator draws from:
`random.Random` (a deterministic state machine seeded by an integer, with
`gauss(mu, sigma)` and `random()` each returning a value and advancing
the state) and libm's `sin`/`pi`.  The simulator is embedded
parametrically in this environment: every claim proved below holds for
any deterministic instantiation, in particular for the Mersenne-Twister
and IEEE-libm one the source runs on. -/
structure SimEnv where
  RS : Type
  rngInit : Int → RS
  gauss : RS → ℚ → ℚ → ℚ × RS
  rand : RS → ℚ × RS
  sin : ℚ → ℚ
  pi : ℚ

/-- Mutable fields of `HydraSimulator` (`_rng`, `_tick`, `_irr_base`,
`_mem_base`, `_climate`). -/
structure SimState (E : SimEnv) where
  rng : E.RS
  tick : Nat
  irrBase : ℚ
  memBase : ℚ
  climate : ClimateProfile

/-- Model of `HydraSimulator.__init__(seed, config)`: the RNG is seeded with
`config.seed if config else seed`; baselines and latitude default to the
Doi Inthanon values when no config is given. -/
def HydraSimulator.init (E : SimEnv) (seed : Int)
    (config : Option StationConfig) : SimState E :=
  { rng := E.rngInit (match config with | some c => c.seed | none => seed)
    tick := 0
    irrBase := match config with | some c => c.irradiance_base | none => 700
    memBase := match config with | some c => c.membrane_base | none => 85
    climate := climate_from_latitude
      (match config with | some c => c.lat | none => 18.5883) }

/-- Model of `HydraSimulator._helios(t, ts)` — returns the subsystem state and the
advanced RNG state.  Draw order matches the source: irradiance noise
first, then desalination noise. -/
def HydraSimulator.helios (E : SimEnv) (st : SimState E) (t : Nat)
    (ts : Nat) : HeliosState × E.RS :=
  let cp := st.climate
  let d1 := E.gauss st.rng 0 (20 * cp.noise_factor)
  let irradiance :=
    max 0 (st.irrBase + 500 * E.sin (2 * E.pi * t / cp.cycle_period) + d1.1)
  let d2 := E.gauss d1.2 0 0.1
  let desal := irradiance * 0.008 + d2.1
  (HeliosState.make irradiance (max 0 desal) ts, d2.2)

/-- Model of `HydraSimulator._aegis(t, ts)` — membrane noise drawn before
biofouling noise. -/
def HydraSimulator.aegis (E : SimEnv) (rng : E.RS) (st : SimState E)
    (t : Nat) (ts : Nat) : AegisState × E.RS :=
  let cp := st.climate
  let d1 := E.gauss rng 0 (1 * cp.noise_factor)
  let membrane := st.memBase + 10 * E.sin (2 * E.pi * t / 300) + d1.1
  let d2 := E.gauss d1.2 0 (2 * cp.noise_factor)
  let biofouling := 100 - membrane + d2.1
  (AegisState.make membrane biofouling (decide (20 < biofouling)) ts, d2.2)

/-- Model of `HydraSimulator._sentinel(t, ts)` — per channel: one Gaussian noise
draw, then one uniform draw deciding offline (`random() < fail_rate`),
in the source order pH, turbidity, heavy metal. -/
def HydraSimulator.sentinel (E : SimEnv) (rng : E.RS) (st : SimState E)
    (t : Nat) (ts : Nat) : SentinelState × E.RS :=
  let cp := st.climate
  let fail := cp.fail_rate
  let nf := cp.noise_factor
  let d1 := E.gauss rng 0 (0.1 * nf)
  let ph0 := 7 + 0.5 * E.sin (2 * E.pi * t / 80) + d1.1
  let u1 := E.rand d1.2
  let ph : Option ℚ := if u1.1 < fail then none else some ph0
  let d2 := E.gauss u1.2 0 (0.3 * nf)
  let turb0 := max 0 (2 + 1.5 * E.sin (2 * E.pi * t / 150) + d2.1)
  let u2 := E.rand d2.2
  let turb : Option ℚ := if u2.1 < fail then none else some turb0
  let d3 := E.gauss u2.2 0 (0.001 * nf)
  let metal0 := max 0 (0.005 + 0.003 * E.sin (2 * E.pi * t / 200) + d3.1)
  let u3 := E.rand d3.2
  let metal : Option ℚ := if u3.1 < fail then none else some metal0
  (SentinelState.make ph turb metal ts, u3.2)

/-- Model of `HydraSimulator.step()`: increments the tick, reads the wall clock
once (`now`, supplied as an explicit input here), and builds the three
subsystem states threading the RNG in source order
helios → aegis → sentinel. -/
def HydraSimulator.step (E : SimEnv) (st : SimState E) (now : Nat) :
    HydraState × SimState E :=
  let t := st.tick + 1
  let h := HydraSimulator.helios E st t now
  let a := HydraSimulator.aegis E h.2 st t now
  let s := HydraSimulator.sentinel E a.2 st t now
  ({ helios := h.1, aegis := a.1, sentinel := s.1, tick := t },
   { st with rng := s.2, tick := t })

/-- Drive a simulator instance `n` times; `clock i` is the wall-clock
reading observed by the `step()` call made at internal tick `i`. -/
def HydraSimulator.run (E : SimEnv) : SimState E → Nat → (Nat → Nat) →
    List HydraState
  | _, 0, _ => []
  | st, n + 1, clock =>
    let r := HydraSimulator.step E st (clock st.tick)
    r.1 :: HydraSimulator.run E r.2 n clock

/-- All snapshot fields except the wall-clock timestamps. -/
def coreOf (s : HydraState) :
    (ℚ × ℚ) × (ℚ × ℚ × Bool) × (Option ℚ × Option ℚ × Option ℚ) × Nat :=
  ((s.helios.solar_irradiance_wm2, s.helios.desalination_rate_lhr),
   (s.aegis.membrane_integrity_pct, s.aegis.biofouling_risk_pct,
    s.aegis.quorum_quenching_active),
   (s.sentinel.ph_level, s.sentinel.turbidity_ntu,
    s.sentinel.heavy_metal_ppm),
   s.tick)

/-- A concrete, trivially computable environment instance (zero noise,
uniform draws returning 1, sine identically 0) used to evaluate the
simulator on explicit inputs. -/
def E0 : SimEnv :=
  { RS := Unit
    rngInit := fun _ => ()
    gauss := fun _ _ _ => (0, ())
    rand := fun _ => (1, ())
    sin := fun _ => 0
    pi := 0 }

/-! ## Anomaly classification (`GraphRAGEngine.detect_anomalies`) -/

/-- Model of spec §3 `AnomalyEvent` — immutable record `(tick, category-label, severity)`. -/
structure AnomalyEvent where
  tick : Nat
  category : String
  severity : Nat
deriving DecidableEq

/-- Modelled from the spec: `GraphRAGEngine.detect_anomalies(snapshot)`
is called from `app.py` but its definition is not among the provided
source files (only `GraphRAGEngine.analyze` is).  Per spec §4.8 it is a
stateless function of a single snapshot emitting zero or more events —
low irradiance (<200 W/m²), high biofouling (>25%), low membrane (<80%),
pH out of [6.5, 8.5] or offline, turbidity >4.0 NTU or offline, heavy
metal >0.01 PPM or offline — each tagged with that tick and a fixed
per-category severity drawn from {1, 2, 3}. -/
def detect_anomalies (s : HydraState) : List AnomalyEvent :=
  (if s.helios.solar_irradiance_wm2 < 200
   then [⟨s.tick, "LOW_IRRADIANCE", 1⟩] else []) ++
  (if 25 < s.aegis.biofouling_risk_pct
   then [⟨s.tick, "BIOFOULING_RISK", 2⟩] else []) ++
  (if s.aegis.membrane_integrity_pct < 80
   then [⟨s.tick, "MEMBRANE_DEGRADATION", 2⟩] else []) ++
  (match s.sentinel.ph_level with
   | none => [⟨s.tick, "PH_SENSOR_OFFLINE", 1⟩]
   | some p =>
     if p < 6.5 ∨ 8.5 < p then [⟨s.tick, "PH_ANOMALY", 2⟩] else []) ++
  (match s.sentinel.turbidity_ntu with
   | none => [⟨s.tick, "TURBIDITY_SENSOR_OFFLINE", 1⟩]
   | some t => if 4 < t then [⟨s.tick, "TURBIDITY_SPIKE", 2⟩] else []) ++
  (match s.sentinel.heavy_metal_ppm with
   | none => [⟨s.tick, "HEAVY_METAL_SENSOR_OFFLINE", 1⟩]
   | some m => if 0.01 < m then [⟨s.tick, "HEAVY_METAL_EXCEEDANCE", 3⟩]
               else [])

/-- The physical-bound invariant of a snapshot (spec §3 / `core/models.py`
docstring): irradiance ∈ [0, 1400], output ≥ 0, membrane ∈ [0, 100],
biofouling ∈ [0, 100], and, for each present reading, pH ∈ [0, 14],
turbidity ≥ 0, heavy metal ≥ 0. -/
def snapshotBounds (s : HydraState) : Prop :=
  0 ≤ s.helios.solar_irradiance_wm2 ∧ s.helios.solar_irradiance_wm2 ≤ 1400 ∧
  0 ≤ s.helios.desalination_rate_lhr ∧
  0 ≤ s.aegis.membrane_integrity_pct ∧ s.aegis.membrane_integrity_pct ≤ 100 ∧
  0 ≤ s.aegis.biofouling_risk_pct ∧ s.aegis.biofouling_risk_pct ≤ 100 ∧
  (∀ p, s.sentinel.ph_level = some p → 0 ≤ p ∧ p ≤ 14) ∧
  (∀ t, s.sentinel.turbidity_ntu = some t → 0 ≤ t) ∧
  (∀ m, s.sentinel.heavy_metal_ppm = some m → 0 ≤ m)

/-! ## Helper lemmas -/

lemma le_clampQ (lo hi v : ℚ) : lo ≤ clampQ lo hi v := le_max_left _ _

lemma clampQ_le {lo hi : ℚ} (h : lo ≤ hi) (v : ℚ) : clampQ lo hi v ≤ hi :=
  max_le h (min_le_left _ _)

lemma le_clampLo (lo v : ℚ) : lo ≤ clampLo lo v := le_max_left _ _

lemma phSubScore_nonneg (p : ℚ) : 0 ≤ phSubScore p := le_max_left _ _

lemma phSubScore_le (p : ℚ) : phSubScore p ≤ 100 := by
  have h0 : (0 : ℚ) ≤ max 0 (|p - 7.5| - 1) := le_max_left _ _
  exact max_le (by norm_num) (by nlinarith)

lemma turbSubScore_nonneg (t : ℚ) : 0 ≤ turbSubScore t := le_max_left _ _

lemma turbSubScore_le {t : ℚ} (h : 0 ≤ t) : turbSubScore t ≤ 100 :=
  max_le (by norm_num) (by nlinarith)

lemma max_min_id {x : ℚ} (h0 : 0 ≤ x) (h1 : x ≤ 100) :
    max 0 (min 100 x) = x := by
  rw [min_eq_right h1, max_eq_right h0]

lemma sxOf_eq (n : ℕ) : sxOf n = n * ((n : ℚ) - 1) / 2 := by
  induction n with
  | zero => simp [sxOf]
  | succ k ih =>
    rw [sxOf, Finset.sum_range_succ, ← sxOf, ih]
    push_cast
    ring

lemma sx2Of_eq (n : ℕ) : sx2Of n = n * ((n : ℚ) - 1) * (2 * n - 1) / 6 := by
  induction n with
  | zero => simp [sx2Of]
  | succ k ih =>
    rw [sx2Of, Finset.sum_range_succ, ← sx2Of, ih]
    push_cast
    ring

lemma olsDenom_eq (n : ℕ) : olsDenom n = (n : ℚ) ^ 2 * ((n : ℚ) ^ 2 - 1) / 12 := by
  rw [olsDenom, sxOf_eq, sx2Of_eq]
  ring

lemma olsDenom_pos {n : ℕ} (h : 2 ≤ n) : 0 < olsDenom n := by
  have h2 : (2 : ℚ) ≤ (n : ℚ) := by exact_mod_cast h
  rw [olsDenom_eq]
  have h4 : (4 : ℚ) ≤ (n : ℚ) ^ 2 := by nlinarith
  have h5 : (0 : ℚ) < (n : ℚ) ^ 2 * ((n : ℚ) ^ 2 - 1) := by nlinarith
  linarith

lemma syOf_eq_sum (data : List ℚ) :
    syOf data = ∑ i ∈ Finset.range data.length, data.getD i 0 := by
  induction data with
  | nil => simp [syOf]
  | cons a l ih =>
    rw [syOf, List.sum_cons, List.length_cons, Finset.sum_range_succ']
    simp only [List.getD_cons_succ, List.getD_cons_zero]
    rw [← syOf, ih]
    ring

lemma sxyAux_eq_sum (data : List ℚ) : ∀ i : ℕ,
    sxyAux i data =
      ∑ j ∈ Finset.range data.length, ((i : ℚ) + j) * data.getD j 0 := by
  induction data with
  | nil => intro i; simp [sxyAux]
  | cons a l ih =>
    intro i
    have hcong :
        (∑ j ∈ Finset.range l.length, ((i : ℚ) + ((j : ℚ) + 1)) * l.getD j 0)
          = ∑ j ∈ Finset.range l.length, (((i + 1 : ℕ) : ℚ) + j) * l.getD j 0 :=
      Finset.sum_congr rfl fun j _ => by push_cast; ring
    have lhs : sxyAux i (a :: l) = (i : ℚ) * a + sxyAux (i + 1) l := rfl
    rw [lhs, ih (i + 1), List.length_cons, Finset.sum_range_succ']
    simp only [List.getD_cons_succ, List.getD_cons_zero]
    push_cast
    push_cast at hcong
    linarith [hcong]

lemma sxyOf_eq_sum (data : List ℚ) :
    sxyOf data = ∑ j ∈ Finset.range data.length, (j : ℚ) * data.getD j 0 := by
  rw [sxyOf, sxyAux_eq_sum data 0]
  exact Finset.sum_congr rfl fun j _ => by push_cast; ring

lemma syOf_lt (T : ℚ) : ∀ data : List ℚ, data ≠ [] → (∀ y ∈ data, y < T) →
    syOf data < data.length * T := by
  intro data
  induction data with
  | nil => intro h; exact absurd rfl h
  | cons a l ih =>
    intro _ hall
    rcases eq_or_ne l [] with h | h
    · subst h
      have := hall a (List.mem_cons_self a [])
      simp only [syOf, List.sum_cons, List.sum_nil, List.length_cons,
        List.length_nil, Nat.cast_one, add_zero, zero_add, one_mul]
      linarith
    · have h1 := ih h fun y hy => hall y (List.mem_cons_of_mem a hy)
      have h2 := hall a (List.mem_cons_self a l)
      rw [syOf, List.sum_cons, List.length_cons, ← syOf]
      push_cast
      linarith

lemma olsSlope_nonneg_of_sorted {data : List ℚ} (hs : data.Sorted (· < ·))
    (h2 : 2 ≤ data.length) : 0 ≤ olsSlope data := by
  rw [olsSlope]
  apply div_nonneg _ (le_of_lt (olsDenom_pos h2))
  have hmono : MonovaryOn (fun i : ℕ => (i : ℚ))
      (fun i : ℕ => data.getD i 0)
      ((Finset.range data.length : Finset ℕ) : Set ℕ) := by
    intro i hi j hj hlt
    dsimp only at hlt
    simp only [Finset.coe_range, Set.mem_Iio] at hi hj
    by_contra hij
    push_neg at hij
    have hji : j < i := by exact_mod_cast hij
    have hget := (List.pairwise_iff_get.mp hs) ⟨j, hj⟩ ⟨i, hi⟩
      (Fin.mk_lt_mk.mpr hji)
    simp only [List.get_eq_getElem] at hget
    rw [List.getD_eq_getElem _ _ hi, List.getD_eq_getElem _ _ hj] at hlt
    linarith
  have cheb := hmono.sum_mul_sum_le_card_mul_sum
  rw [Finset.card_range] at cheb
  rw [syOf_eq_sum, sxyOf_eq_sum, sxOf]
  linarith [cheb]

lemma filterMap_const70 :
    ([some 70, some 70, some 70, some 70, some 70, some 70, some 70, some 70, some 70, some (70 : ℚ)]).filterMap id =
      [70, 70, 70, 70, 70, 70, 70, 70, 70, (70 : ℚ)] := rfl

lemma syOf_const70 : syOf ([70, 70, 70, 70, 70, 70, 70, 70, 70, (70 : ℚ)]) = 700 := by
  norm_num [syOf, List.replicate, List.sum_cons]

lemma sxyOf_const70 : sxyOf ([70, 70, 70, 70, 70, 70, 70, 70, 70, (70 : ℚ)]) = 3150 := by
  norm_num [sxyOf, sxyAux, List.replicate]

lemma olsSlope_const70 : olsSlope ([70, 70, 70, 70, 70, 70, 70, 70, 70, (70 : ℚ)]) = 0 := by
  rw [olsSlope, syOf_const70, sxyOf_const70]
  norm_num [sxOf_eq, olsDenom_eq]

lemma olsIntercept_const70 :
    olsIntercept ([70, 70, 70, 70, 70, 70, 70, 70, 70, (70 : ℚ)]) = 70 := by
  rw [olsIntercept, syOf_const70, olsSlope_const70]
  norm_num [sxOf_eq]

lemma syOf_decline :
    syOf [79, 78, 77, 76, 75, 74, 73, 72, 71, (70 : ℚ)] = 745 := by
  norm_num [syOf, List.sum_cons]

lemma sxyOf_decline :
    sxyOf [79, 78, 77, 76, 75, 74, 73, 72, 71, (70 : ℚ)] = 3270 := by
  norm_num [sxyOf, sxyAux]

lemma olsSlope_decline :
    olsSlope [79, 78, 77, 76, 75, 74, 73, 72, 71, (70 : ℚ)] = -1 := by
  rw [olsSlope, syOf_decline, sxyOf_decline]
  norm_num [sxOf_eq, olsDenom_eq]

lemma olsIntercept_decline :
    olsIntercept [79, 78, 77, 76, 75, 74, 73, 72, 71, (70 : ℚ)] = 79 := by
  rw [olsIntercept, syOf_decline, olsSlope_decline]
  norm_num [sxOf_eq]

lemma climate_tropical {lat : ℚ} (h : |lat| < 23.5) :
    climate_from_latitude lat = ⟨"Tropical", 1.0, 0.04, 120⟩ := by
  simp only [climate_from_latitude]
  rw [if_pos h]

lemma climate_arid {lat : ℚ} (h1 : 23.5 ≤ |lat|) (h2 : |lat| < 35) :
    climate_from_latitude lat = ⟨"Arid", 1.3, 0.03, 130⟩ := by
  simp only [climate_from_latitude]
  rw [if_neg (not_lt.2 h1), if_pos h2]

lemma climate_temperate {lat : ℚ} (h1 : 35 ≤ |lat|) (h2 : |lat| < 55) :
    climate_from_latitude lat = ⟨"Temperate", 1.1, 0.02, 150⟩ := by
  simp only [climate_from_latitude]
  rw [if_neg (not_lt.2 (by linarith)), if_neg (not_lt.2 h1), if_pos h2]

lemma climate_cold {lat : ℚ} (h1 : 55 ≤ |lat|) (h2 : |lat| < 66.5) :
    climate_from_latitude lat = ⟨"Cold", 1.4, 0.02, 180⟩ := by
  simp only [climate_from_latitude]
  rw [if_neg (not_lt.2 (by linarith)), if_neg (not_lt.2 (by linarith)),
    if_neg (not_lt.2 h1), if_pos h2]

lemma climate_polar {lat : ℚ} (h1 : 66.5 ≤ |lat|) :
    climate_from_latitude lat = ⟨"Polar", 1.6, 0.05, 240⟩ := by
  simp only [climate_from_latitude]
  rw [if_neg (not_lt.2 (by linarith)), if_neg (not_lt.2 (by linarith)),
    if_neg (not_lt.2 (by linarith)), if_neg (not_lt.2 h1)]

/-! ## Claim C7 -/

/-- C7 counterexample: the latitudes 30° (Arid: noise 1.3, failure 0.03)
and 40° (Temperate: noise 1.1, failure 0.02) satisfy
`23.5 ≤ |lat1| < |lat2|` yet both the noise multiplier and the failure
rate strictly decrease, so monotonicity from the Tropical boundary on is
false. -/
theorem climate_monotone_counterexample :
    (23.5 : ℚ) ≤ |(30 : ℚ)| ∧ |(30 : ℚ)| < |(40 : ℚ)| ∧
    ¬((climate_from_latitude 30).noise_factor ≤
        (climate_from_latitude 40).noise_factor) ∧
    ¬((climate_from_latitude 30).fail_rate ≤
        (climate_from_latitude 40).fail_rate) := by
  have h30 : climate_from_latitude 30 = ⟨"Arid", 1.3, 0.03, 130⟩ :=
    climate_arid (by norm_num) (by norm_num)
  have h40 : climate_from_latitude 40 = ⟨"Temperate", 1.1, 0.02, 150⟩ :=
    climate_temperate (by norm_num) (by norm_num)
  rw [h30, h40]
  norm_num

/-- C7 (amended): `climate_from_latitude` is total and the five latitude
bands are exhaustive and mutually exclusive (exactly one matches any
latitude, and the function returns that band's profile); the noise
multiplier and failure rate are monotone toward the poles only from the
Temperate boundary (35°) on — the Arid→Temperate step (counterexample)
decreases both, so the claimed 23.5° threshold must be raised to 35°. -/
theorem climate_zone_unique_and_monotone_from_temperate :
    (∀ lat : ℚ, ∃! i : Fin 5, zonePred i lat) ∧
    (∀ (i : Fin 5) (lat : ℚ), zonePred i lat →
        climate_from_latitude lat = zoneProfiles i) ∧
    (∀ l1 l2 : ℚ, 35 ≤ |l1| → |l1| < |l2| →
        (climate_from_latitude l1).noise_factor ≤
          (climate_from_latitude l2).noise_factor ∧
        (climate_from_latitude l1).fail_rate ≤
          (climate_from_latitude l2).fail_rate) := by
  refine ⟨?_, ?_, ?_⟩
  · intro lat
    rcases lt_or_le |lat| 23.5 with h0 | h0
    · exact ⟨0, h0, by
        intro j hj
        fin_cases j <;> simp only [zonePred] at hj ⊢ <;>
          first | rfl | (exfalso; rcases hj with ⟨h1, h2⟩ | h1 <;> linarith) |
            (exfalso; linarith [hj.1]) | (exfalso; linarith)⟩
    · rcases lt_or_le |lat| 35 with h1 | h1
      · exact ⟨1, ⟨h0, h1⟩, by
          intro j hj
          fin_cases j <;> simp only [zonePred] at hj ⊢ <;>
            first | rfl | (exfalso; linarith) |
              (exfalso; linarith [hj.1]) | (exfalso; linarith [hj.2])⟩
      · rcases lt_or_le |lat| 55 with h2 | h2
        · exact ⟨2, ⟨h1, h2⟩, by
            intro j hj
            fin_cases j <;> simp only [zonePred] at hj ⊢ <;>
              first | rfl | (exfalso; linarith) |
                (exfalso; linarith [hj.1]) | (exfalso; linarith [hj.2])⟩
        · rcases lt_or_le |lat| 66.5 with h3 | h3
          · exact ⟨3, ⟨h2, h3⟩, by
              intro j hj
              fin_cases j <;> simp only [zonePred] at hj ⊢ <;>
                first | rfl | (exfalso; linarith) |
                  (exfalso; linarith [hj.1]) | (exfalso; linarith [hj.2])⟩
          · exact ⟨4, h3, by
              intro j hj
              fin_cases j <;> simp only [zonePred] at hj ⊢ <;>
                first | rfl | (exfalso; linarith) |
                  (exfalso; linarith [hj.1]) | (exfalso; linarith [hj.2])⟩
  · intro i lat h
    fin_cases i <;> simp only [zonePred] at h <;> simp only [zoneProfiles]
    · exact climate_tropical h
    · exact climate_arid h.1 h.2
    · exact climate_temperate h.1 h.2
    · exact climate_cold h.1 h.2
    · exact climate_polar h
  · intro l1 l2 h1 h2
    rcases lt_or_le |l1| 55 with a1 | a1
    · rw [climate_temperate h1 a1]
      rcases lt_or_le |l2| 55 with b1 | b1
      · rw [climate_temperate (by linarith) b1]; norm_num
      · rcases lt_or_le |l2| 66.5 with b2 | b2
        · rw [climate_cold b1 b2]; norm_num
        · rw [climate_polar b2]; norm_num
    · rcases lt_or_le |l1| 66.5 with a2 | a2
      · rw [climate_cold a1 a2]
        rcases lt_or_le |l2| 66.5 with b2 | b2
        · rw [climate_cold (by linarith) b2]; norm_num
        · rw [climate_polar b2]; norm_num
      · rw [climate_polar a2, climate_polar (by linarith)]
        norm_num

/-- C7 witness: the amended monotonicity applied at the concrete pair
(40°, 60°): Temperate (1.1, 0.02) ≤ Cold (1.4, 0.02) componentwise. -/
theorem climate_zone_unique_and_monotone_witness :
    (climate_from_latitude 40).noise_factor ≤
        (climate_from_latitude 60).noise_factor ∧
      (climate_from_latitude 40).fail_rate ≤
        (climate_from_latitude 60).fail_rate :=
  climate_zone_unique_and_monotone_from_temperate.2.2 40 60 (by norm_num)
    (by norm_num)

/-! ## Claim C9 -/

/-- C9: with all three channels offline, `compute_wqi` returns exactly
`(0.0, "N/A", neutral colour)` — a defined policy result, not an error. -/
theorem wqi_all_offline :
    compute_wqi none none none = (0, "N/A", "#505068") := rfl

/-! ## Claim C3 -/

/-- C3: with heavy metal offline and pH/turbidity present, `compute_wqi`
equals the weighted average of the pH and turbidity sub-scores with the
weights (0.35, 0.35) renormalised to sum to 1; in particular
`compute_wqi(7.5, 0.0, None)` is the two-channel score (here 100), not a
value treating the missing channel as perfect or zero. -/
theorem wqi_weight_renormalisation :
    (∀ ph t : ℚ, 0 ≤ t →
      (compute_wqi (some ph) (some t) none).1 =
        (phSubScore ph * 0.35 + turbSubScore t * 0.35) / (0.35 + 0.35)) ∧
    (compute_wqi (some 7.5) (some 0) none).1 = 100 := by
  have key : ∀ ph t : ℚ, 0 ≤ t →
      (compute_wqi (some ph) (some t) none).1 =
        (phSubScore ph * 0.35 + turbSubScore t * 0.35) / (0.35 + 0.35) := by
    intro ph t ht
    have hp0 := phSubScore_nonneg ph
    have hp1 := phSubScore_le ph
    have ht0 := turbSubScore_nonneg t
    have ht1 := turbSubScore_le ht
    simp only [compute_wqi, List.cons_append, List.nil_append,
      List.map_cons, List.map_nil, List.sum_cons, List.sum_nil]
    norm_num
    simp only [List.cons_ne_nil, if_false, reduceCtorEq, ite_false]
    exact max_min_id (div_nonneg (by linarith) (by norm_num))
      (by rw [div_le_iff₀ (by norm_num)]; linarith)
  refine ⟨key, ?_⟩
  rw [key 7.5 0 le_rfl]
  norm_num [phSubScore, turbSubScore]

/-- C3 witness: the theorem applied at the concrete reading
`(pH, turbidity) = (7.5, 0)`. -/
theorem wqi_weight_renormalisation_witness :
    (compute_wqi (some 7.5) (some 0) none).1 =
      (phSubScore 7.5 * 0.35 + turbSubScore 0 * 0.35) / (0.35 + 0.35) :=
  wqi_weight_renormalisation.1 7.5 0 le_rfl

/-! ## Claim C4 -/

/-- C4: if at least one present channel fails its WHO limit (pH outside
`[6.5, 8.5]`, turbidity ≥ 1, heavy metal ≥ 0.01), the aggregate status is
`"FAIL"` no matter how many other channels are offline. -/
theorem who_fail_dominates (ph turbidity heavy_metal : Option ℚ)
    (h : (∃ p, ph = some p ∧ (p < 6.5 ∨ 8.5 < p)) ∨
         (∃ t, turbidity = some t ∧ 1 ≤ t) ∨
         (∃ m, heavy_metal = some m ∧ 0.01 ≤ m)) :
    (check_who_compliance ph turbidity heavy_metal).1 = "FAIL" := by
  rcases h with ⟨p, hp, hv⟩ | ⟨t, ht, hv⟩ | ⟨m, hm, hv⟩
  · subst hp
    have hc : ¬(6.5 ≤ p ∧ p ≤ 8.5) := by
      rintro ⟨h1, h2⟩; rcases hv with hv | hv <;> linarith
    rcases turbidity with _ | t <;> rcases heavy_metal with _ | m <;>
      simp only [check_who_compliance, if_neg hc] <;> simp
  · subst ht
    have hc : ¬(t < 1) := by linarith
    rcases ph with _ | p <;> rcases heavy_metal with _ | m <;>
      simp only [check_who_compliance, if_neg hc] <;> simp
  · subst hm
    have hc : ¬(m < 0.01) := by linarith
    rcases ph with _ | p <;> rcases turbidity with _ | t <;>
      simp only [check_who_compliance, if_neg hc] <;> simp

/-- C4 witness: one failing channel (pH 9) and one offline channel
(turbidity) report `"FAIL"`, never `"PARTIAL"`. -/
theorem who_fail_dominates_witness :
    (check_who_compliance (some 9) none (some 0.005)).1 = "FAIL" :=
  who_fail_dominates (some 9) none (some 0.005)
    (Or.inl ⟨9, rfl, Or.inr (by norm_num)⟩)

/-! ## Claim C5 -/

/-- C5 counterexample: ten samples all equal to 70 — every value below the
threshold 80 and at least 10 present samples — yet `predict_maintenance`
returns `ticks_remaining = None`, not 0, because the flat trend hits the
`slope >= 0` early return first. -/
theorem maintenance_due_now_counterexample :
    10 ≤ (([some 70, some 70, some 70, some 70, some 70, some 70, some 70, some 70, some 70, some (70 : ℚ)]).filterMap id).length ∧
    (∀ y ∈ ([some 70, some 70, some 70, some 70, some 70, some 70, some 70, some 70, some 70, some (70 : ℚ)]).filterMap id, y < 80) ∧
    (predict_maintenance ([some 70, some 70, some 70, some 70, some 70, some 70, some 70, some 70, some 70, some (70 : ℚ)]) 80).1 ≠
      some 0 := by
  refine ⟨?_, ?_, ?_⟩
  · rw [filterMap_const70]; simp
  · rw [filterMap_const70]
    intro y hy
    simp only [List.mem_cons, List.not_mem_nil, or_false, or_self] at hy
    subst hy
    norm_num
  · have hlen10 : ([70, 70, 70, 70, 70, 70, 70, 70, 70, (70 : ℚ)]).length = 10 :=
      rfl
    simp only [predict_maintenance, filterMap_const70]
    rw [hlen10]
    rw [if_neg (by norm_num), if_neg (by rw [olsDenom_eq]; norm_num),
      if_pos (by simp [olsSlope_const70])]
    simp

/-- C5 (amended): a history of at least 10 present samples, all below the
threshold, whose fitted OLS slope is negative, yields
`ticks_remaining = 0` ("due now").  (The claim as stated omits the
negative-slope condition; a flat or improving all-below-threshold history
returns `None` instead — see the counterexample.) -/
theorem maintenance_due_now (history : List (Option ℚ)) (threshold : ℚ)
    (hlen : 10 ≤ (history.filterMap id).length)
    (hbelow : ∀ y ∈ history.filterMap id, y < threshold)
    (hslope : olsSlope (history.filterMap id) < 0) :
    predict_maintenance history threshold =
      (some 0, olsSlope (history.filterMap id),
        olsIntercept (history.filterMap id)) := by
  set data := history.filterMap id with hdata
  have hn : ¬(data.length < 10) := by omega
  have hdpos := olsDenom_pos (n := data.length) (by omega)
  have hne : data ≠ [] := by
    intro h
    rw [h] at hlen
    simp at hlen
  have hn0 : (0 : ℚ) < (data.length : ℚ) := by
    exact_mod_cast Nat.pos_of_ne_zero (by omega)
  have hn1 : (1 : ℚ) ≤ (data.length : ℚ) := by
    exact_mod_cast (by omega : 1 ≤ data.length)
  have hsy := syOf_lt threshold data hne hbelow
  have hsyn : syOf data / (data.length : ℚ) < threshold := by
    rw [div_lt_iff₀ hn0, mul_comm]
    exact hsy
  have hexp : olsIntercept data = syOf data / (data.length : ℚ) -
      olsSlope data * ((data.length : ℚ) - 1) / 2 := by
    rw [olsIntercept, sxOf_eq]
    field_simp
    ring
  have hterm : olsSlope data * ((data.length : ℚ) - 1) ≤ 0 := by
    nlinarith
  have hcur : olsSlope data * ((data.length : ℚ) - 1) + olsIntercept data ≤
      threshold := by
    rw [hexp]
    linarith
  simp only [predict_maintenance]
  rw [if_neg hn, if_neg (ne_of_gt hdpos), if_neg (not_le.2 hslope),
    if_pos hcur]

/-- C5 witness: the amended theorem applied to the strictly declining
history 79, 78, …, 70 (all below 80, fitted slope −1): maintenance is due
now. -/
theorem maintenance_due_now_witness :
    predict_maintenance [some 79, some 78, some 77, some 76, some 75,
      some 74, some 73, some 72, some 71, some (70 : ℚ)] 80 =
      (some 0, -1, 79) := by
  have hfm : ([some 79, some 78, some 77, some 76, some 75, some 74,
      some 73, some 72, some 71, some (70 : ℚ)]).filterMap id =
      [79, 78, 77, 76, 75, 74, 73, 72, 71, (70 : ℚ)] := rfl
  have h := maintenance_due_now
    [some 79, some 78, some 77, some 76, some 75, some 74, some 73,
      some 72, some 71, some (70 : ℚ)] 80
    (by rw [hfm]; simp)
    (by
      rw [hfm]
      intro y hy
      simp only [List.mem_cons, List.not_mem_nil, or_false] at hy
      rcases hy with rfl | rfl | rfl | rfl | rfl | rfl | rfl | rfl | rfl |
        rfl <;> norm_num)
    (by rw [hfm, olsSlope_decline]; norm_num)
  rw [h, hfm, olsSlope_decline, olsIntercept_decline]

/-! ## Claim C6 -/

/-- C6: with at least 10 present samples and a non-negative fitted OLS
slope over the compacted sequence, `predict_maintenance` returns
`(None, slope, intercept)`; in particular any strictly increasing history
of length ≥ 10 yields no forecast. -/
theorem maintenance_no_forecast_when_slope_nonneg :
    (∀ (history : List (Option ℚ)) (threshold : ℚ),
        10 ≤ (history.filterMap id).length →
        0 ≤ olsSlope (history.filterMap id) →
        predict_maintenance history threshold =
          (none, olsSlope (history.filterMap id),
            olsIntercept (history.filterMap id))) ∧
    (∀ (data : List ℚ) (threshold : ℚ), 10 ≤ data.length →
        data.Sorted (· < ·) →
        (predict_maintenance (data.map some) threshold).1 = none) := by
  have key : ∀ (history : List (Option ℚ)) (threshold : ℚ),
      10 ≤ (history.filterMap id).length →
      0 ≤ olsSlope (history.filterMap id) →
      predict_maintenance history threshold =
        (none, olsSlope (history.filterMap id),
          olsIntercept (history.filterMap id)) := by
    intro history threshold hlen hslope
    set data := history.filterMap id with hdata
    have hn : ¬(data.length < 10) := by omega
    have hdpos := olsDenom_pos (n := data.length) (by omega)
    simp only [predict_maintenance]
    rw [if_neg hn, if_neg (ne_of_gt hdpos), if_pos hslope]
  refine ⟨key, ?_⟩
  intro data threshold hlen hs
  have hfm : (data.map some).filterMap id = data := by
    simp [List.filterMap_map]
  rw [key (data.map some) threshold (by rw [hfm]; exact hlen)
    (by rw [hfm]; exact olsSlope_nonneg_of_sorted hs (by omega))]

/-- C6 witness: the theorem applied to a constant history of ten 70s
(fitted slope 0): no maintenance forecast. -/
theorem maintenance_no_forecast_when_slope_nonneg_witness :
    predict_maintenance ([some 70, some 70, some 70, some 70, some 70, some 70, some 70, some 70, some 70, some (70 : ℚ)]) 80 =
      (none, 0, 70) := by
  have h := maintenance_no_forecast_when_slope_nonneg.1
    ([some 70, some 70, some 70, some 70, some 70, some 70, some 70, some 70, some 70, some (70 : ℚ)]) 80
    (by rw [filterMap_const70]; simp)
    (by simp [filterMap_const70, olsSlope_const70])
  rw [h, filterMap_const70, olsSlope_const70,
    olsIntercept_const70]

/-! ## Claim C10 -/

/-- C10: the aggregate WHO status is `"PASS"` only when all three
channels are present and each passes its limit; when no present channel
fails but at least one channel is offline, the status is `"PARTIAL"`. -/
theorem who_pass_requires_all_present_channels :
    (∀ ph turbidity heavy_metal : Option ℚ,
      (check_who_compliance ph turbidity heavy_metal).1 = "PASS" →
        (∃ p, ph = some p ∧ 6.5 ≤ p ∧ p ≤ 8.5) ∧
        (∃ t, turbidity = some t ∧ t < 1) ∧
        (∃ m, heavy_metal = some m ∧ m < 0.01)) ∧
    (∀ ph turbidity heavy_metal : Option ℚ,
      (∀ p, ph = some p → 6.5 ≤ p ∧ p ≤ 8.5) →
      (∀ t, turbidity = some t → t < 1) →
      (∀ m, heavy_metal = some m → m < 0.01) →
      (ph = none ∨ turbidity = none ∨ heavy_metal = none) →
      (check_who_compliance ph turbidity heavy_metal).1 = "PARTIAL") := by
  constructor
  · intro ph turbidity heavy_metal h
    rcases ph with _ | p
    · rcases turbidity with _ | t <;> rcases heavy_metal with _ | m <;>
        simp only [check_who_compliance] at h <;> split_ifs at h <;> simp_all
    · rcases turbidity with _ | t
      · rcases heavy_metal with _ | m <;>
          simp only [check_who_compliance] at h <;> split_ifs at h <;> simp_all
      · rcases heavy_metal with _ | m
        · simp only [check_who_compliance] at h
          split_ifs at h <;> simp_all
        · by_cases h1 : 6.5 ≤ p ∧ p ≤ 8.5 <;> by_cases h2 : t < 1 <;>
            by_cases h3 : m < 0.01 <;> simp_all [check_who_compliance]
  · intro ph turbidity heavy_metal hp ht hm hoff
    rcases ph with _ | p <;> rcases turbidity with _ | t <;>
      rcases heavy_metal with _ | m <;> simp_all [check_who_compliance]

/-- C10 witness: every present channel passing (pH 7, heavy metal 0.005)
with turbidity offline yields `"PARTIAL"`. -/
theorem who_pass_requires_all_present_channels_witness :
    (check_who_compliance (some 7) none (some 0.005)).1 = "PARTIAL" :=
  who_pass_requires_all_present_channels.2 (some 7) none (some 0.005)
    (fun p hp => by
      rw [Option.some.injEq] at hp
      subst hp
      constructor <;> norm_num)
    (fun t ht => by cases ht)
    (fun m hm => by
      rw [Option.some.injEq] at hm
      subst hm
      norm_num)
    (Or.inr (Or.inl rfl))

/-! ## Claim C2 -/

/-- C2: every snapshot produced by `step()` — for any RNG/libm
environment, so in particular for every seed, station configuration and
tick — satisfies the physical bounds enforced by the state constructors:
irradiance ∈ [0, 1400], output ≥ 0, membrane and biofouling ∈ [0, 100],
and each present reading with pH ∈ [0, 14], turbidity ≥ 0, heavy
metal ≥ 0. -/
theorem step_snapshot_bounds (E : SimEnv) (st : SimState E) (now : Nat) :
    snapshotBounds (HydraSimulator.step E st now).1 := by
  simp only [snapshotBounds, HydraSimulator.step, HydraSimulator.helios,
    HydraSimulator.aegis, HydraSimulator.sentinel, HeliosState.make,
    AegisState.make, SentinelState.make]
  refine ⟨le_clampQ _ _ _, clampQ_le (by norm_num) _, le_clampLo _ _,
    le_clampQ _ _ _, clampQ_le (by norm_num) _, le_clampQ _ _ _,
    clampQ_le (by norm_num) _, ?_, ?_, ?_⟩
  · intro p hp
    split_ifs at hp
    · simp at hp
    · simp only [Option.map_some', Option.some.injEq] at hp
      subst hp
      exact ⟨le_clampQ _ _ _, clampQ_le (by norm_num) _⟩
  · intro t ht
    split_ifs at ht
    · simp at ht
    · simp only [Option.map_some', Option.some.injEq] at ht
      subst ht
      exact le_clampLo _ _
  · intro m hm
    split_ifs at hm
    · simp at hm
    · simp only [Option.map_some', Option.some.injEq] at hm
      subst hm
      exact le_clampLo _ _

/-- C2 witness: the bounds hold for the concrete first snapshot of a
default-seeded instance in the concrete environment `E0`. -/
theorem step_snapshot_bounds_witness :
    snapshotBounds
      (HydraSimulator.step E0 (HydraSimulator.init E0 42 none) 0).1 :=
  step_snapshot_bounds E0 (HydraSimulator.init E0 42 none) 0

/-! ## Claim C1 -/

lemma step_fst_core_eq (E : SimEnv) (st : SimState E) (now now' : Nat) :
    coreOf (HydraSimulator.step E st now).1 =
      coreOf (HydraSimulator.step E st now').1 := rfl

lemma step_snd_eq (E : SimEnv) (st : SimState E) (now now' : Nat) :
    (HydraSimulator.step E st now).2 = (HydraSimulator.step E st now').2 :=
  rfl

lemma run_map_coreOf (E : SimEnv) :
    ∀ (n : Nat) (st : SimState E) (c1 c2 : Nat → Nat),
      (HydraSimulator.run E st n c1).map coreOf =
        (HydraSimulator.run E st n c2).map coreOf := by
  intro n
  induction n with
  | zero => intro st c1 c2; rfl
  | succ k ih =>
    intro st c1 c2
    simp only [HydraSimulator.run, List.map_cons]
    rw [step_fst_core_eq E st (c1 st.tick) (c2 st.tick),
      step_snd_eq E st (c1 st.tick) (c2 st.tick),
      ih ((HydraSimulator.step E st (c2 st.tick)).2) c1 c2]

/-- C1 counterexample: in the concrete environment `E0`, two instances
constructed identically (seed 42, no config) and each driven by one
`step()` call do NOT produce bit-identical snapshots when the wall clock
reads 0 for one call and 1 for the other: the snapshot `timestamp`
fields (filled from `datetime.now()`) differ. -/
theorem run_bitIdentical_counterexample :
    HydraSimulator.run E0 (HydraSimulator.init E0 42 none) 1 (fun _ => 0) ≠
      HydraSimulator.run E0 (HydraSimulator.init E0 42 none) 1
        (fun _ => 1) := by
  intro hEq
  have h1 : (HydraSimulator.run E0 (HydraSimulator.init E0 42 none) 1
      (fun _ => 0)).map (fun s => s.helios.timestamp) = [0] := rfl
  have h2 : (HydraSimulator.run E0 (HydraSimulator.init E0 42 none) 1
      (fun _ => 1)).map (fun s => s.helios.timestamp) = [1] := rfl
  rw [hEq, h2] at h1
  exact absurd h1 (by simp)

/-- C1 (amended): two simulator instances constructed with identical
seed and station parameters and each driven by N `step()` calls produce
snapshot sequences that agree bit-for-bit on every field derived from
the seeded PRNG and the tick counter — everything except the wall-clock
`timestamp` fields, which record the `datetime.now()` reading of each
call and therefore coincide only when the observed clock values do.
Stated for every RNG/libm environment, i.e. for arbitrary wall-clock
streams the `coreOf` projections (all non-timestamp fields) of the two
runs are equal. -/
theorem run_core_determinism (E : SimEnv) (seed : Int)
    (config : Option StationConfig) (n : Nat) (clock1 clock2 : Nat → Nat) :
    (HydraSimulator.run E (HydraSimulator.init E seed config) n
        clock1).map coreOf =
      (HydraSimulator.run E (HydraSimulator.init E seed config) n
        clock2).map coreOf :=
  run_map_coreOf E n (HydraSimulator.init E seed config) clock1 clock2

/-! ## Claim C8 -/

/-- C8: `detect_anomalies` is a pure (hence stateless, memory-free)
function of a single snapshot returning a possibly empty list of
immutable `(tick, category, severity)` records; every emitted event
carries the snapshot's tick and a severity in {1, 2, 3}. -/
theorem detect_anomalies_stateless_severity :
    ∀ (s : HydraState) (e : AnomalyEvent), e ∈ detect_anomalies s →
      (e.severity = 1 ∨ e.severity = 2 ∨ e.severity = 3) ∧
        e.tick = s.tick := by
  intro s e h
  rcases s with ⟨hel, aeg, ⟨php, turbp, metp, tsp⟩, tk⟩
  rcases php with _ | p <;> rcases turbp with _ | tv <;>
    rcases metp with _ | mv <;>
    simp only [detect_anomalies, List.mem_append, List.mem_singleton] at h <;>
    rcases h with ((((h | h) | h) | h) | h) | h <;>
    first
      | (split_ifs at h <;> simp_all)
      | simp_all

/-- C8 witness: the theorem applied to a concrete snapshot whose only
anomaly is low irradiance (100 < 200 W/m²) at tick 3. -/
theorem detect_anomalies_stateless_severity_witness :
    ((AnomalyEvent.mk 3 "LOW_IRRADIANCE" 1).severity = 1 ∨
      (AnomalyEvent.mk 3 "LOW_IRRADIANCE" 1).severity = 2 ∨
      (AnomalyEvent.mk 3 "LOW_IRRADIANCE" 1).severity = 3) ∧
    (AnomalyEvent.mk 3 "LOW_IRRADIANCE" 1).tick =
      (HydraState.mk ⟨100, 5, 0⟩ ⟨90, 10, false, 0⟩
        ⟨some 7, some 1, some 0.005, 0⟩ 3).tick :=
  detect_anomalies_stateless_severity
    (HydraState.mk ⟨100, 5, 0⟩ ⟨90, 10, false, 0⟩
      ⟨some 7, some 1, some 0.005, 0⟩ 3)
    (AnomalyEvent.mk 3 "LOW_IRRADIANCE" 1)
    (by norm_num [detect_anomalies])

end Hydra
